import Mathlib

/-!
Verification of the FX option shock pricer core: a shallow embedding of the
interpolation kernels, the Garman-Kohlhagen pricer, the volatility smile and
surface, the rate/forward curves, and the market-data delta / shock engine,
together with theorems settling the frozen behavioural claims.

Numeric convention: Python floats are embedded as exact arithmetic — `ℚ` for
the purely rational code paths (shock engine, curves, linear interpolation)
and `ℝ` where transcendental functions (`exp`, `log`, `sqrt`, the normal CDF)
appear.  External scipy interpolators (`CubicSpline`, `LinearNDInterpolator`)
are black boxes to the source as well; they are modelled as explicit function
parameters of the embedded operations.
-/

namespace FXO

/-! ### Python `sorted` — a stable insertion sort.

`insertSorted lt x acc` inserts `x` after every element `y` of the sorted
accumulator with `¬ lt x y`, so equal keys keep their first-seen order;
folding from the left therefore models the stable Python `sorted`. -/

def insertSorted {α : Type} (lt : α → α → Bool) (x : α) : List α → List α
  | [] => [x]
  | y :: ys => if lt x y then x :: y :: ys else y :: insertSorted lt x ys

def pySorted {α : Type} (lt : α → α → Bool) (l : List α) : List α :=
  l.foldl (fun acc x => insertSorted lt x acc) []

/-! ### Interpolation kernels (`src/models/interpolation.py`) -/

/-- Source `_linear_segment`: the value at `x` on the line through `(x1,y1)` and
`(x2,y2)`; equal abscissae return `y1` instead of dividing by zero. -/
def linearSegment {α : Type} [Field α] [DecidableEq α]
    (x x1 y1 x2 y2 : α) : α :=
  if x2 = x1 then y1 else y1 + (y2 - y1) / (x2 - x1) * (x - x1)

/-- Source `bisect.bisect_left` on the ascending-sorted pillar lists the source
feeds it: the insertion index equals the number of elements `< x`. -/
def bisectLeft {α : Type} [LinearOrder α] (x : α) (xs : List α) : ℕ :=
  xs.countP (fun y => decide (y < x))

/-- Source `linear_interpolate(x, x_points, y_points, extrapolate)`: binary-search
bracket with linear segments; errors on length mismatch or empty input,
single point returns that point, out-of-range either extrapolates from the
two boundary points or clamps. -/
def linearInterpolate {α : Type} [LinearOrderedField α]
    (x : α) (xs ys : List α) (extrapolate : Bool) : Except String α :=
  if xs.length ≠ ys.length then
    .error "x_points and y_points must have the same length"
  else if xs.length = 0 then
    .error "Cannot interpolate with empty points"
  else if xs.length = 1 then
    .ok (ys.headD 0)
  else
    let idx := bisectLeft x xs
    if idx = 0 then
      if extrapolate then
        .ok (linearSegment x (xs.getD 0 0) (ys.getD 0 0) (xs.getD 1 0) (ys.getD 1 0))
      else .ok (ys.headD 0)
    else if idx ≥ xs.length then
      if extrapolate then
        .ok (linearSegment x (xs.getD (xs.length - 2) 0) (ys.getD (ys.length - 2) 0)
          (xs.getLastD 0) (ys.getLastD 0))
      else .ok (ys.getLastD 0)
    else
      .ok (linearSegment x (xs.getD (idx - 1) 0) (ys.getD (idx - 1) 0)
        (xs.getD idx 0) (ys.getD idx 0))

/-- Source `variance_interpolate(t, t_points, vol_points, extrapolate)`: interpolates
total variance `vol² · t` linearly and converts back with a square root;
degenerate cases (`t ≤ 0`, non-positive interpolated variance) return the
first vol unchanged. -/
noncomputable def varianceInterpolate
    (t : ℝ) (ts vols : List ℝ) (extrapolate : Bool) : Except String ℝ :=
  if ts.length ≠ vols.length then
    .error "t_points and vol_points must have the same length"
  else if ts.length = 0 then
    .error "Cannot interpolate with empty points"
  else if ts.length = 1 then
    .ok (vols.headD 0)
  else if t ≤ 0 then
    .ok (vols.headD 0)
  else
    let variancePoints := List.zipWith (fun vol time => vol ^ 2 * time) vols ts
    match linearInterpolate t ts variancePoints extrapolate with
    | .error e => .error e
    | .ok variance =>
      if variance ≤ 0 then .ok (vols.headD 0)
      else .ok (Real.sqrt (variance / t))

/-! ### The standard normal distribution (`scipy.stats.norm`).

`norm.pdf`, `norm.cdf` and `norm.ppf` of the source are the standard normal
density, its cumulative distribution function, and the inverse CDF. -/

open MeasureTheory in
noncomputable def normPdf (x : ℝ) : ℝ :=
  Real.exp (-(x ^ 2) / 2) / Real.sqrt (2 * Real.pi)

open MeasureTheory in
noncomputable def normCdf (x : ℝ) : ℝ :=
  ∫ t in Set.Iic x, normPdf t

/-- Source `norm.ppf`: the inverse of the standard normal CDF. -/
noncomputable def normPpf (p : ℝ) : ℝ :=
  Function.invFun normCdf p

/-! ### Garman-Kohlhagen pricer (`src/models/garman_kohlhagen.py`) -/

/-- Source `OptionParams`: input parameters for FX option pricing. -/
structure OptionParams where
  spot : ℝ
  strike : ℝ
  domesticRate : ℝ
  foreignRate : ℝ
  volatility : ℝ
  timeToExpiry : ℝ
  isCall : Bool
  notional : ℝ := 1000000
  notionalCurrency : String := "FOR"

/-- Source `Greeks`: container for option Greeks. -/
structure Greeks where
  delta : ℝ
  gamma : ℝ
  vega : ℝ
  theta : ℝ

/-- Source `PricingResult`: complete pricing result. -/
structure PricingResult where
  premium : ℝ
  premiumPct : ℝ
  premiumPips : ℝ
  forward : ℝ
  greeks : Greeks
  d1 : ℝ
  d2 : ℝ

namespace GarmanKohlhagen

/-- Source `GarmanKohlhagen._calculate_d1_d2`: returns `(0,0)` when `t ≤ 0` or
`vol ≤ 0`, otherwise the Black-Scholes `d1`/`d2`. -/
noncomputable def d1d2 (spot strike rDom rFor vol t : ℝ) : ℝ × ℝ :=
  if t ≤ 0 ∨ vol ≤ 0 then (0, 0)
  else
    let sqrtT := Real.sqrt t
    let d1 := (Real.log (spot / strike) + (rDom - rFor + 0.5 * vol ^ 2) * t) / (vol * sqrtT)
    (d1, d1 - vol * sqrtT)

/-- Source `GarmanKohlhagen.forward`: interest rate parity `F = S·e^{(r_d−r_f)t}`. -/
noncomputable def forward (spot rDom rFor t : ℝ) : ℝ :=
  spot * Real.exp ((rDom - rFor) * t)

/-- Source `GarmanKohlhagen.price`: premium per unit of foreign notional; intrinsic
value at or past expiry. -/
noncomputable def price (params : OptionParams) : ℝ :=
  let S := params.spot
  let K := params.strike
  let t := params.timeToExpiry
  if t ≤ 0 then
    if params.isCall then max (S - K) 0 else max (K - S) 0
  else
    let d := d1d2 S K params.domesticRate params.foreignRate params.volatility t
    let dfDom := Real.exp (-params.domesticRate * t)
    let dfFor := Real.exp (-params.foreignRate * t)
    if params.isCall then
      S * dfFor * normCdf d.1 - K * dfDom * normCdf d.2
    else
      K * dfDom * normCdf (-d.2) - S * dfFor * normCdf (-d.1)

/-- Source `GarmanKohlhagen.delta`: spot delta; moneyness indicator at expiry. -/
noncomputable def delta (params : OptionParams) : ℝ :=
  let t := params.timeToExpiry
  if t ≤ 0 then
    if params.isCall then
      if params.spot > params.strike then 1 else 0
    else
      if params.spot < params.strike then -1 else 0
  else
    let d := d1d2 params.spot params.strike params.domesticRate params.foreignRate
      params.volatility t
    let dfFor := Real.exp (-params.foreignRate * t)
    if params.isCall then dfFor * normCdf d.1 else dfFor * (normCdf d.1 - 1)

/-- Source `GarmanKohlhagen.gamma`. -/
noncomputable def gamma (params : OptionParams) : ℝ :=
  let t := params.timeToExpiry
  if t ≤ 0 then 0
  else
    let d := d1d2 params.spot params.strike params.domesticRate params.foreignRate
      params.volatility t
    Real.exp (-params.foreignRate * t) * normPdf d.1 /
      (params.spot * params.volatility * Real.sqrt t)

/-- Source `GarmanKohlhagen.vega` (per 1% vol move). -/
noncomputable def vega (params : OptionParams) : ℝ :=
  let t := params.timeToExpiry
  if t ≤ 0 then 0
  else
    let d := d1d2 params.spot params.strike params.domesticRate params.foreignRate
      params.volatility t
    params.spot * Real.exp (-params.foreignRate * t) * normPdf d.1 * Real.sqrt t * 0.01

/-- Source `GarmanKohlhagen.theta` (per calendar day). -/
noncomputable def theta (params : OptionParams) : ℝ :=
  let t := params.timeToExpiry
  if t ≤ 0 then 0
  else
    let S := params.spot
    let K := params.strike
    let rD := params.domesticRate
    let rF := params.foreignRate
    let vol := params.volatility
    let d := d1d2 S K rD rF vol t
    let dfDom := Real.exp (-rD * t)
    let dfFor := Real.exp (-rF * t)
    let sqrtT := Real.sqrt t
    let term1 := -(S * dfFor * normPdf d.1 * vol) / (2 * sqrtT)
    let term2 := if params.isCall then rF * S * dfFor * normCdf d.1
      else -(rF * S * dfFor * normCdf (-d.1))
    let term3 := if params.isCall then -(rD * K * dfDom * normCdf d.2)
      else rD * K * dfDom * normCdf (-d.2)
    (term1 + term2 + term3) / 365

/-- Source `GarmanKohlhagen.calculate_all`: premium, forward and all Greeks,
with the premium rescaled into absolute notional terms. -/
noncomputable def calculateAll (params : OptionParams) : PricingResult :=
  let t := params.timeToExpiry
  let d := d1d2 params.spot params.strike params.domesticRate params.foreignRate
    params.volatility t
  let premium := price params
  let fwd := forward params.spot params.domesticRate params.foreignRate t
  let greeks : Greeks :=
    ⟨delta params, gamma params, vega params, theta params⟩
  let premiumPct := if params.notionalCurrency = "FOR" then premium / params.spot * 100
    else premium * 100
  let premiumPips := premium * 10000
  { premium := if params.notionalCurrency = "FOR" then premium * params.notional
      else premium * params.notional / params.spot
    premiumPct := premiumPct
    premiumPips := premiumPips
    forward := fwd
    greeks := greeks
    d1 := d.1
    d2 := d.2 }

/-- Source `GarmanKohlhagen.calculate_strike_from_delta`: inverse of the delta
formula through `norm.ppf`; returns the spot when `t ≤ 0`. -/
noncomputable def calculateStrikeFromDelta
    (spot delta rDom rFor vol t : ℝ) (isCall : Bool) : ℝ :=
  if t ≤ 0 then spot
  else
    let sqrtT := Real.sqrt t
    let dfFor := Real.exp (-rFor * t)
    let d1 := if isCall then normPpf (delta / dfFor) else normPpf (delta / dfFor + 1)
    let lnSOverK := d1 * vol * sqrtT - (rDom - rFor + 0.5 * vol ^ 2) * t
    spot * Real.exp (-lnSOverK)

end GarmanKohlhagen

/-! ### Volatility smile and surface (`src/volatility/surface.py`).

`VolSmile.expiry_date` (an external calendar date) is dropped: only the
derived `time_to_expiry` / `days_to_expiry` enter any computation. -/

/-- Source `VolSmile`: the 5-point smile of one tenor with calculated strikes. -/
structure VolSmile where
  tenor : String
  timeToExpiry : ℝ
  daysToExpiry : ℤ := 0
  vol10p : ℝ := 0
  vol25p : ℝ := 0
  volAtm : ℝ := 0
  vol25c : ℝ := 0
  vol10c : ℝ := 0
  strike10p : ℝ := 0
  strike25p : ℝ := 0
  strikeAtm : ℝ := 0
  strike25c : ℝ := 0
  strike10c : ℝ := 0
  deriving Inhabited

namespace VolSmile

/-- Source `VolSmile.get_strikes_list`: strikes in order 10P, 25P, ATM, 25C, 10C. -/
def getStrikesList (s : VolSmile) : List ℝ :=
  [s.strike10p, s.strike25p, s.strikeAtm, s.strike25c, s.strike10c]

/-- Source `VolSmile.get_vols_list`: vols in order 10P, 25P, ATM, 25C, 10C. -/
def getVolsList (s : VolSmile) : List ℝ :=
  [s.vol10p, s.vol25p, s.volAtm, s.vol25c, s.vol10c]

/-- Source `VolSmile.get_vol_for_strike`: sort the five (strike, vol) pairs by
strike and linearly interpolate (with extrapolation) at the target strike. -/
noncomputable def getVolForStrike (s : VolSmile) (strike : ℝ) : Except String ℝ :=
  let sortedPairs := pySorted (fun a b => decide (a.1 < b.1))
    (s.getStrikesList.zip s.getVolsList)
  linearInterpolate strike (sortedPairs.map Prod.fst) (sortedPairs.map Prod.snd) true

/-- Source `VolSmile.calculate_strikes`: populate the five strikes — ATM through the
delta-neutral-straddle approximation over a simple-interest forward, the four
wings through the Garman-Kohlhagen delta inversion. -/
noncomputable def calculateStrikes (s : VolSmile) (spot rDom rFor : ℝ) : VolSmile :=
  let t := s.timeToExpiry
  let fwd := spot * (1 + (rDom - rFor) * t)
  { s with
    strikeAtm := fwd * (1 + 0.5 * s.volAtm ^ 2 * t)
    strike25c := GarmanKohlhagen.calculateStrikeFromDelta spot 0.25 rDom rFor s.vol25c t true
    strike25p := GarmanKohlhagen.calculateStrikeFromDelta spot (-0.25) rDom rFor s.vol25p t false
    strike10c := GarmanKohlhagen.calculateStrikeFromDelta spot 0.10 rDom rFor s.vol10c t true
    strike10p := GarmanKohlhagen.calculateStrikeFromDelta spot (-0.10) rDom rFor s.vol10p t false }

end VolSmile

/-- Python `round(·, 4)` rounds half to even. -/
noncomputable def roundHalfEven (x : ℝ) : ℤ :=
  let f := ⌊x⌋
  let r := x - f
  if r < 1 / 2 then f
  else if 1 / 2 < r then f + 1
  else if Even f then f else f + 1

noncomputable def round4 (v : ℝ) : ℝ :=
  (roundHalfEven (v * 10000) : ℝ) / 10000

/-- Python `int()` truncates toward zero. -/
noncomputable def intTrunc (x : ℝ) : ℤ :=
  if 0 ≤ x then ⌊x⌋ else ⌈x⌉

/-- Source `VolSurface`: the smiles in dict insertion order (`self._smiles`; tenors
are dict keys, hence unique).  The scipy `LinearNDInterpolator` and
`CubicSpline` caches are modelled as explicit parameters of the queries. -/
structure VolSurface where
  smiles : List VolSmile

namespace VolSurface

/-- Source `VolSurface.calculate_all_strikes`. -/
noncomputable def calculateAllStrikes (surf : VolSurface) (spot rDom rFor : ℝ) : VolSurface :=
  ⟨surf.smiles.map (fun s => s.calculateStrikes spot rDom rFor)⟩

/-- Source `self._tenor_times` after `_rebuild_tenor_times`: smiles stably sorted by
`time_to_expiry`. -/
noncomputable def sortedByTime (surf : VolSurface) : List VolSmile :=
  pySorted (fun a b => decide (a.timeToExpiry < b.timeToExpiry)) surf.smiles

/-- Source `self._tenor_days` / `self._maturities_in_days`: smiles stably sorted by
`days_to_expiry`. -/
def sortedByDays (surf : VolSurface) : List VolSmile :=
  pySorted (fun a b => decide (a.daysToExpiry < b.daysToExpiry)) surf.smiles

/-- Source `VolSurface._interpolate_with_variance`: locate the two tenor pillars
bracketing `t`, interpolate each bracketing smile at the strike, then combine
across time by variance interpolation. -/
noncomputable def interpolateWithVariance
    (surf : VolSurface) (strike tte : ℝ) : Except String ℝ :=
  if surf.smiles.length = 0 then .ok 0.10
  else
    let tt := surf.sortedByTime
    let idx : ℕ × ℕ :=
      match tt.findIdx? (fun s => decide (tte ≤ s.timeToExpiry)) with
      | some i => (i - 1, i)
      | none => (0, tt.length - 1)
    let lowerSmile := tt.getD idx.1 default
    let upperSmile := tt.getD idx.2 default
    match lowerSmile.getVolForStrike strike, upperSmile.getVolForStrike strike with
    | .ok volLower, .ok volUpper =>
      varianceInterpolate tte [lowerSmile.timeToExpiry, upperSmile.timeToExpiry]
        [volLower, volUpper] true
    | .error e, _ => .error e
    | _, .error e => .error e

/-- The query part of `VolSurface.get_vol` once strikes are in place: the
single-smile strike interpolation, the 2D-interpolator attempt, and the
variance fallback, each guarded by the `0.001 < vol < 2.0` sanity check with
`DEFAULT_VOL = 0.10` on failure.

`ndVol` is the value of the scipy `LinearNDInterpolator` at
`(int(time_to_expiry*365), strike)`; `none` stands for both NaN and an
interpolator exception, either of which makes the source fall through to the
variance fallback.  The `.error` arm of the single-smile match is unreachable
(the two lists always hold five points each). -/
noncomputable def getVolQuery (surf' : VolSurface) (ndVol : Option ℝ)
    (strike tte : ℝ) : ℝ :=
  if surf'.smiles.length = 1 then
    match (surf'.smiles.headD default).getVolForStrike strike with
    | .ok vol => if 0.001 < vol ∧ vol < 2 then vol else 0.10
    | .error _ => 0.10
  else
    let fallback :=
      match surf'.interpolateWithVariance strike tte with
      | .ok vol => if 0.001 < vol ∧ vol < 2 then vol else 0.10
      | .error _ => 0.10
    match ndVol with
    | some v => if 0.001 < v ∧ v < 2 then round4 v else fallback
    | none => fallback

/-- Source `VolSurface.get_vol(strike, time_to_expiry, spot, r_dom, r_for)`: the
empty-surface default, the recalculation of strikes when a spot is supplied
and the first smile is uninitialised, then the query of `getVolQuery`. -/
noncomputable def getVol (surf : VolSurface) (ndVol : Option ℝ) (strike tte : ℝ)
    (spot rDom rFor : Option ℝ) : ℝ :=
  if surf.smiles.length = 0 then 0.10
  else
    let surf' :=
      match spot with
      | some sp =>
        if (surf.smiles.headD default).strikeAtm = 0 then
          surf.calculateAllStrikes sp (rDom.getD 0) (rFor.getD 0)
        else surf
      | none => surf
    getVolQuery surf' ndVol strike tte

/-- Source `VolSurface.get_atm_vol(time_to_expiry)`.

`atmSpline` is the scipy `CubicSpline` over `(maturities_in_days, atm_vols)`
(built only when the surface has at least two smiles); `none` selects the
variance-interpolation fallback of the source. -/
noncomputable def getAtmVol (surf : VolSurface) (atmSpline : Option (ℤ → ℝ))
    (tte : ℝ) : ℝ :=
  if surf.smiles.length = 0 then 0.10
  else
    match atmSpline with
    | none =>
      let tPoints := surf.sortedByTime.map VolSmile.timeToExpiry
      let volPoints := surf.sortedByTime.map VolSmile.volAtm
      if volPoints.length = 0 ∨ volPoints.any (fun v => decide (v ≤ 0 ∨ 2 < v)) then 0.10
      else
        match varianceInterpolate tte tPoints volPoints true with
        | .ok vol => if 0.001 < vol ∧ vol < 2 then vol else 0.10
        | .error _ => 0.10
    | some spl =>
      let mats := surf.sortedByDays.map VolSmile.daysToExpiry
      let days := max (mats.headD 0) (min (intTrunc (tte * 365)) (mats.getLastD 0))
      let vol := spl days
      if 0.001 < vol ∧ vol < 2 then vol else 0.10

end VolSurface

/-! ### Forward curve (`src/rates/curves.py`).

The scipy `CubicSpline` the curve caches is modelled as an explicit function
parameter; `timePoints` is the `_time_points` cache that `_rebuild_spline`
computes (the pillar times sorted ascending). -/

structure ForwardCurve where
  ccyPair : String
  spot : ℚ
  forwards : List (String × ℚ) := []
  timePoints : List ℚ := []

/-- Source `ForwardCurve.get_forward(time_to_maturity)`: spot for an empty curve, the
single stored forward for a one-point curve, otherwise spot for `t ≤ 0` and
the (boundary-clamped) spline value. -/
def ForwardCurve.getForward (c : ForwardCurve) (spline : ℚ → ℚ) (t : ℚ) : ℚ :=
  if c.forwards.length = 0 then c.spot
  else if c.forwards.length = 1 then (c.forwards.headD ("", 0)).2
  else
    let tMin := c.timePoints.headD 0
    let tMax := c.timePoints.getLastD 0
    if t ≤ 0 then c.spot
    else if t < tMin then spline tMin
    else if t > tMax then spline tMax
    else spline t

/-! ### Market data, delta and shock engine (`src/bloomberg/data_fetcher.py`).

Python dicts are embedded as association lists in insertion order with unique
keys; `.get(k, 0)` is `lookup0`. -/

def lookup0 (d : List (String × ℚ)) (k : String) : ℚ :=
  match d.find? (fun p => p.1 == k) with
  | some p => p.2
  | none => 0

def lookupSmileData (d : List (String × List (String × ℚ))) (k : String) :
    List (String × ℚ) :=
  match d.find? (fun p => p.1 == k) with
  | some p => p.2
  | none => []

/-- A historical snapshot as returned by `get_historical_data`: the raw dict
with spot, per-tenor forward points, USD rates and 5-field vol smile dicts
(`atm`, `rr25`, `bf25`, `rr10`, `bf10`, percentage-scaled). -/
structure HistSnapshot where
  spot : ℚ := 0
  forwardPoints : List (String × ℚ) := []
  usdRates : List (String × ℚ) := []
  volSmiles : List (String × List (String × ℚ)) := []

/-- Source `VolSmileData`: raw smile quotes from the vendor. -/
structure VolSmileData where
  tenor : String
  atm : ℚ
  rr25 : ℚ
  bf25 : ℚ
  rr10 : ℚ
  bf10 : ℚ

/-- Source `VolSmileData.vol_25c`. -/
def VolSmileData.vol25c (d : VolSmileData) : ℚ := d.atm + 0.5 * d.rr25 + d.bf25

/-- Source `VolSmileData.vol_25p`. -/
def VolSmileData.vol25p (d : VolSmileData) : ℚ := d.vol25c - d.rr25

/-- Source `VolSmileData.vol_10c`. -/
def VolSmileData.vol10c (d : VolSmileData) : ℚ := d.atm + 0.5 * d.rr10 + d.bf10

/-- Source `VolSmileData.vol_10p`. -/
def VolSmileData.vol10p (d : VolSmileData) : ℚ := d.vol10c - d.rr10

/-- Source `MarketData`: current market data for one pair.  The non-USD-cross helper
fields (`f_ccy_vs_usd…`, `d_ccy_vs_usd…`), `forward_points`, `usd_rates`,
`days_to_maturity` and `fetch_date` play no part in the code paths of the claims
and are omitted. -/
structure MarketData where
  ccyPair : String
  fCcy : String := ""
  dCcy : String := ""
  spot : ℚ
  isDollarCross : Bool := true
  forwardRates : List (String × ℚ) := []
  volSmiles : List (String × VolSmileData) := []
  domesticRates : List (String × ℚ) := []
  foreignRates : List (String × ℚ) := []

/-- Source `MarketDataDelta`: differences between two historical snapshots.  Dates
are embedded as day numbers, so `(end_date - start_date).days` is a plain
subtraction. -/
structure MarketDataDelta where
  startDate : ℤ := 0
  endDate : ℤ := 0
  timeDiffDays : ℤ := 0
  spotPctChange : ℚ := 0
  forwardPctChanges : List (String × ℚ) := []
  usdRateDiffs : List (String × ℚ) := []
  atmVolDiffs : List (String × ℚ) := []
  rr25Diffs : List (String × ℚ) := []
  rr10Diffs : List (String × ℚ) := []
  bf25Diffs : List (String × ℚ) := []
  bf10Diffs : List (String × ℚ) := []

/-- The per-tenor vol-smile diff loop of `MarketDataDelta.calculate`: one
diff entry per start-snapshot tenor whose smile dict is non-empty in both
snapshots, `(end - start) / 100` on the given smile key. -/
def volSmileDiffs (startData endData : HistSnapshot) (key : String) :
    List (String × ℚ) :=
  startData.volSmiles.filterMap (fun p =>
    let ss := lookupSmileData startData.volSmiles p.1
    let es := lookupSmileData endData.volSmiles p.1
    if ss ≠ [] ∧ es ≠ [] then
      some (p.1, (lookup0 es key - lookup0 ss key) / 100)
    else none)

/-- Source `MarketDataDelta.calculate(start_data, end_data, start_date, end_date)`. -/
def MarketDataDelta.calculate (startData endData : HistSnapshot)
    (startDate endDate : ℤ) : MarketDataDelta :=
  let timeDiff := endDate - startDate
  let spotPct :=
    if 0 < startData.spot then (endData.spot - startData.spot) / startData.spot
    else 0
  let fwdPctChanges := startData.forwardPoints.map (fun p =>
    let startPts := lookup0 startData.forwardPoints p.1
    let endPts := lookup0 endData.forwardPoints p.1
    (p.1, if startPts ≠ 0 then (endPts - startPts) / |startPts| else 0))
  let rateDiffs := startData.usdRates.map (fun p =>
    (p.1, (lookup0 endData.usdRates p.1 - lookup0 startData.usdRates p.1) / 100))
  { startDate := startDate
    endDate := endDate
    timeDiffDays := timeDiff
    spotPctChange := spotPct
    forwardPctChanges := fwdPctChanges
    usdRateDiffs := rateDiffs
    atmVolDiffs := volSmileDiffs startData endData "atm"
    rr25Diffs := volSmileDiffs startData endData "rr25"
    rr10Diffs := volSmileDiffs startData endData "rr10"
    bf25Diffs := volSmileDiffs startData endData "bf25"
    bf10Diffs := volSmileDiffs startData endData "bf10" }

/-- The shocked smile dict of one tenor, with keys `atm`, `rr25`, `rr10`, `bf25`, `bf10`. -/
structure ShockedSmile where
  atm : ℚ
  rr25 : ℚ
  rr10 : ℚ
  bf25 : ℚ
  bf10 : ℚ
  deriving DecidableEq

/-- Source `ShockedMarketData`. -/
structure ShockedMarketData where
  spot : ℚ
  forwardRates : List (String × ℚ)
  domesticRates : List (String × ℚ)
  foreignRates : List (String × ℚ)
  volSmiles : List (String × ShockedSmile)
  atmVols : List (String × ℚ)
  shockedExpiryDays : ℤ
  originalExpiryDays : ℤ
  spotShockPct : ℚ
  volShock : ℚ
  rateShock : ℚ

namespace ShockCalculator

/-- Source `ShockCalculator.apply_shock(current_market_data, delta,
original_expiry_days)`. -/
def applyShock (cur : MarketData) (delta : MarketDataDelta)
    (originalExpiryDays : ℤ) : ShockedMarketData :=
  let shockedSpot := cur.spot * (1 + delta.spotPctChange)
  let pipScale : ℚ := if "JPY".toList <:+: cur.ccyPair.toList then 100 else 10000
  let shockedForwards := cur.forwardRates.map (fun p =>
    let pctChange := lookup0 delta.forwardPctChanges p.1
    let fwdPts := (p.2 - cur.spot) * pipScale
    let shockedPts := fwdPts * (1 + pctChange)
    (p.1, shockedSpot + shockedPts / pipScale))
  let shockedDomRates := cur.domesticRates.map (fun p =>
    (p.1, p.2 + lookup0 delta.usdRateDiffs p.1))
  let shockedForRates := cur.foreignRates.map (fun p =>
    (p.1, p.2 + lookup0 delta.usdRateDiffs p.1))
  let shockedVolSmiles : List (String × ShockedSmile) := cur.volSmiles.map (fun p =>
    (p.1, ⟨max 0.001 (p.2.atm + lookup0 delta.atmVolDiffs p.1),
      p.2.rr25 + lookup0 delta.rr25Diffs p.1,
      p.2.rr10 + lookup0 delta.rr10Diffs p.1,
      max 0 (p.2.bf25 + lookup0 delta.bf25Diffs p.1),
      max 0 (p.2.bf10 + lookup0 delta.bf10Diffs p.1)⟩))
  let shockedAtmVols := cur.volSmiles.map (fun p =>
    (p.1, max 0.001 (p.2.atm + lookup0 delta.atmVolDiffs p.1)))
  let avgVolShock :=
    if cur.volSmiles.length = 0 then 0
    else (cur.volSmiles.map (fun p => lookup0 delta.atmVolDiffs p.1)).sum /
      (cur.volSmiles.length : ℚ)
  let avgRateShock :=
    if delta.usdRateDiffs.isEmpty then 0
    else (delta.usdRateDiffs.map Prod.snd).sum / (delta.usdRateDiffs.length : ℚ)
  { spot := shockedSpot
    forwardRates := shockedForwards
    domesticRates := shockedDomRates
    foreignRates := shockedForRates
    volSmiles := shockedVolSmiles
    atmVols := shockedAtmVols
    shockedExpiryDays := originalExpiryDays - delta.timeDiffDays
    originalExpiryDays := originalExpiryDays
    spotShockPct := delta.spotPctChange
    volShock := avgVolShock
    rateShock := avgRateShock }

end ShockCalculator

/-! ### Tenor parsing (`src/utils/date_utils.py`) -/

/-- Source `parse_tenor_to_components`: `strip().upper()` then match
`^(\d+)([DWMY])$`. -/
def parseTenorToComponents (tenor : String) : Except String (ℕ × Char) :=
  let s := tenor.trim.toUpper.toList
  let digits := s.takeWhile Char.isDigit
  let rest := s.dropWhile Char.isDigit
  match digits, rest with
  | [], _ => .error "Invalid tenor format"
  | _, [u] =>
    if u = 'D' ∨ u = 'W' ∨ u = 'M' ∨ u = 'Y' then
      .ok (digits.foldl (fun acc c => 10 * acc + (c.toNat - 48)) 0, u)
    else .error "Invalid tenor format"
  | _, _ => .error "Invalid tenor format"

/-- Source `tenor_to_years`: D/365, W·7/365, M/12, integer years. -/
def tenorToYears (tenor : String) : Except String ℚ :=
  match parseTenorToComponents tenor with
  | .error e => .error e
  | .ok (n, u) =>
    if u = 'D' then .ok ((n : ℚ) / 365)
    else if u = 'W' then .ok ((n : ℚ) * 7 / 365)
    else if u = 'M' then .ok ((n : ℚ) / 12)
    else .ok (n : ℚ)

/-! ### Shocked repricing orchestration
(`src/gui/main_window.py`, `_on_apply_shock` and its helpers). -/

/-- Source `_get_interpolated_shocked_rate(time_to_expiry, rates)`: 0 for an empty
dict, otherwise linear interpolation over `(tenor_to_years(tenor), rate)`
pairs sorted as Python sorts tuples (lexicographically). -/
def getInterpolatedShockedRate (tte : ℚ) (rates : List (String × ℚ)) :
    Except String ℚ :=
  if rates.length = 0 then .ok 0
  else
    match rates.mapM (fun p => (tenorToYears p.1).map (fun t => (t, p.2))) with
    | .error e => .error e
    | .ok pairs =>
      let sorted := pySorted
        (fun a b => decide (a.1 < b.1 ∨ (a.1 = b.1 ∧ a.2 < b.2))) pairs
      linearInterpolate tte (sorted.map Prod.fst) (sorted.map Prod.snd) true

/-- Source `_get_interpolated_shocked_vol(strike, time_to_expiry, spot, r_dom,
r_for, vol_smiles)`: per tenor, rebuild the 5-point smile at the shocked
market, interpolate it at the strike of the option, validate, then combine the
per-tenor vols across time by variance interpolation.

The inputs come from `apply_shock`, so all five smile fields are present and
the missing-`atm`/`rr25`/`bf25` skips of the source and the `rr10`/`bf10`
approximations are unreachable; a failed per-tenor strike interpolation or an
out-of-range vol drops that tenor, mirroring the source `errors.append` +
`continue`. -/
noncomputable def getInterpolatedShockedVol (strike tte spot rDom rFor : ℝ)
    (volSmiles : List (String × ShockedSmile)) : Except String ℝ :=
  if volSmiles.length = 0 then .error "SHOCKED VOL ERROR: No vol smiles provided"
  else
    match volSmiles.mapM (fun p => (tenorToYears p.1).map (fun t => (t, p.2))) with
    | .error e => .error e
    | .ok smilesT =>
      let pts : List (ℝ × ℝ) := smilesT.filterMap (fun q =>
        let t : ℝ := (q.1 : ℚ)
        let atm : ℝ := (q.2.atm : ℚ)
        let rr25 : ℝ := (q.2.rr25 : ℚ)
        let rr10 : ℝ := (q.2.rr10 : ℚ)
        let bf25 : ℝ := (q.2.bf25 : ℚ)
        let bf10 : ℝ := (q.2.bf10 : ℚ)
        let vol25c := atm + 0.5 * rr25 + bf25
        let vol25p := atm - 0.5 * rr25 + bf25
        let vol10c := atm + 0.5 * rr10 + bf10
        let vol10p := atm - 0.5 * rr10 + bf10
        let strike25c := GarmanKohlhagen.calculateStrikeFromDelta spot 0.25 rDom rFor vol25c t true
        let strike25p := GarmanKohlhagen.calculateStrikeFromDelta spot (-0.25) rDom rFor vol25p t false
        let strike10c := GarmanKohlhagen.calculateStrikeFromDelta spot 0.10 rDom rFor vol10c t true
        let strike10p := GarmanKohlhagen.calculateStrikeFromDelta spot (-0.10) rDom rFor vol10p t false
        let strikeAtm := spot * Real.exp ((rDom - rFor) * t) * Real.exp (0.5 * atm ^ 2 * t)
        let strikes := [strike10p, strike25p, strikeAtm, strike25c, strike10c]
        let vols := [vol10p, vol25p, atm, vol25c, vol10c]
        let sortedPairs := pySorted (fun a b => decide (a.1 < b.1)) (strikes.zip vols)
        match linearInterpolate strike (sortedPairs.map Prod.fst)
          (sortedPairs.map Prod.snd) true with
        | .ok volAtStrike =>
          if volAtStrike ≤ 0 then none
          else if 2 < volAtStrike then none
          else some (t, volAtStrike)
        | .error _ => none)
      if pts.length = 0 then .error "SHOCKED VOL ERROR: No valid tenors"
      else
        let sorted := pySorted
          (fun a b => decide (a.1 < b.1 ∨ (a.1 = b.1 ∧ a.2 < b.2))) pts
        match varianceInterpolate tte (sorted.map Prod.fst) (sorted.map Prod.snd) true with
        | .error _ => .error "SHOCKED VOL ERROR: variance interpolation failed"
        | .ok v =>
          if v ≤ 0 then .error "SHOCKED VOL ERROR: variance interpolation returned vol <= 0"
          else if 2 < v then .error "SHOCKED VOL ERROR: variance interpolation returned vol > 200%"
          else .ok v

/-- The error `_on_apply_shock` raises when the shocked expiry is not
positive (the source message interpolates the day count). -/
def expiredError (shockedExpiryDays : ℤ) : String :=
  "Shocked expiry is " ++ toString shockedExpiryDays ++
    " days. The shock period exceeds the remaining life of the option."

/-- The numeric core of `_on_apply_shock`: apply the shock, fail with the
specific expired error when the shocked expiry is `≤ 0`, otherwise
interpolate the shocked rates and the shocked vol at the strike of the option and
reprice with the Garman-Kohlhagen model. -/
noncomputable def applyShockAndReprice (cur : MarketData) (delta : MarketDataDelta)
    (lastParams : OptionParams) : Except String PricingResult :=
  let originalExpiryDays := intTrunc (lastParams.timeToExpiry * 365)
  let shocked := ShockCalculator.applyShock cur delta originalExpiryDays
  if shocked.shockedExpiryDays ≤ 0 then
    .error (expiredError shocked.shockedExpiryDays)
  else
    let shockedTte : ℚ := (shocked.shockedExpiryDays : ℚ) / 365
    match getInterpolatedShockedRate shockedTte shocked.domesticRates with
    | .error e => .error e
    | .ok dom =>
      match getInterpolatedShockedRate shockedTte shocked.foreignRates with
      | .error e => .error e
      | .ok rfor =>
        match getInterpolatedShockedVol lastParams.strike ((shockedTte : ℚ) : ℝ)
          ((shocked.spot : ℚ) : ℝ) ((dom : ℚ) : ℝ) ((rfor : ℚ) : ℝ)
          shocked.volSmiles with
        | .error e => .error e
        | .ok vol =>
          .ok (GarmanKohlhagen.calculateAll
            { spot := ((shocked.spot : ℚ) : ℝ)
              strike := lastParams.strike
              domesticRate := ((dom : ℚ) : ℝ)
              foreignRate := ((rfor : ℚ) : ℝ)
              volatility := vol
              timeToExpiry := ((shockedTte : ℚ) : ℝ)
              isCall := lastParams.isCall
              notional := lastParams.notional
              notionalCurrency := lastParams.notionalCurrency })

/-! ## Theorems -/

/-! ### Properties of the standard normal CDF -/

theorem normPdf_pos (x : ℝ) : 0 < normPdf x := by
  unfold normPdf
  have h2π : 0 < Real.sqrt (2 * Real.pi) :=
    Real.sqrt_pos.mpr (by positivity)
  positivity

theorem normPdf_even (x : ℝ) : normPdf (-x) = normPdf x := by
  simp [normPdf]

theorem integrable_normPdf : MeasureTheory.Integrable normPdf := by
  have h : normPdf = fun x => Real.exp (-(1 / 2 : ℝ) * x ^ 2) / Real.sqrt (2 * Real.pi) := by
    funext x
    unfold normPdf
    ring_nf
  rw [h]
  exact (integrable_exp_neg_mul_sq (by norm_num)).div_const _

theorem integral_normPdf : ∫ x, normPdf x = 1 := by
  have h : ∀ x : ℝ, normPdf x = Real.exp (-(1 / 2 : ℝ) * x ^ 2) / Real.sqrt (2 * Real.pi) := by
    intro x
    unfold normPdf
    ring_nf
  simp only [h]
  rw [MeasureTheory.integral_div, integral_gaussian]
  rw [show Real.pi / (1 / 2) = 2 * Real.pi by ring]
  exact div_self (ne_of_gt (Real.sqrt_pos.mpr (by positivity)))

theorem normCdf_sub_normCdf (a b : ℝ) :
    normCdf b - normCdf a = ∫ x in a..b, normPdf x := by
  exact intervalIntegral.integral_Iic_sub_Iic
    integrable_normPdf.integrableOn integrable_normPdf.integrableOn

theorem normCdf_strictMono : StrictMono normCdf := by
  intro a b hab
  have h := normCdf_sub_normCdf a b
  have hpos : 0 < ∫ x in a..b, normPdf x :=
    intervalIntegral.intervalIntegral_pos_of_pos
      integrable_normPdf.intervalIntegrable normPdf_pos hab
  linarith

theorem normCdf_continuous : Continuous normCdf := by
  have h : normCdf = fun b => normCdf 0 + ∫ x in (0 : ℝ)..b, normPdf x := by
    funext b
    have := normCdf_sub_normCdf 0 b
    linarith
  rw [h]
  exact continuous_const.add (integrable_normPdf.continuous_primitive 0)

theorem normCdf_tendsto_atTop :
    Filter.Tendsto normCdf Filter.atTop (nhds 1) := by
  have h := (MeasureTheory.aecover_Iic
      (Filter.tendsto_id (α := ℝ))).integral_tendsto_of_countably_generated
      integrable_normPdf
  rwa [integral_normPdf] at h

theorem normCdf_eq_one_sub (x : ℝ) :
    normCdf x = 1 - ∫ t in Set.Ici x, normPdf t := by
  have hsplit : (∫ t in Set.Iic x, normPdf t) + ∫ t in Set.Ioi x, normPdf t
      = ∫ t, normPdf t :=
    intervalIntegral.integral_Iic_add_Ioi
      integrable_normPdf.integrableOn integrable_normPdf.integrableOn
  rw [integral_normPdf] at hsplit
  rw [MeasureTheory.integral_Ici_eq_integral_Ioi]
  unfold normCdf
  linarith

theorem normCdf_tendsto_atBot :
    Filter.Tendsto normCdf Filter.atBot (nhds 0) := by
  have h := (MeasureTheory.aecover_Ici
      (Filter.tendsto_id (α := ℝ))).integral_tendsto_of_countably_generated
      integrable_normPdf
  rw [integral_normPdf] at h
  have h2 : Filter.Tendsto (fun x : ℝ => 1 - ∫ t in Set.Ici x, normPdf t)
      Filter.atBot (nhds (1 - 1)) := (tendsto_const_nhds).sub h
  norm_num at h2
  refine h2.congr fun x => ?_
  have := normCdf_eq_one_sub x
  linarith

/-- Source `Φ(-x) = 1 - Φ(x)`: reflection symmetry of the standard normal CDF. -/
theorem normCdf_neg (x : ℝ) : normCdf (-x) = 1 - normCdf x := by
  have h1 : normCdf (-x) = ∫ t in Set.Iic (-x), normPdf (-t) := by
    unfold normCdf
    congr 1
    funext t
    exact (normPdf_even t).symm
  rw [h1, integral_comp_neg_Iic, neg_neg,
    ← MeasureTheory.integral_Ici_eq_integral_Ioi]
  have := normCdf_eq_one_sub x
  linarith

theorem normCdf_surj {p : ℝ} (h0 : 0 < p) (h1 : p < 1) :
    ∃ x, normCdf x = p := by
  have ha : ∀ᶠ a in Filter.atBot, normCdf a < p :=
    normCdf_tendsto_atBot.eventually_lt_const h0
  have hb : ∀ᶠ b in Filter.atTop, p < normCdf b :=
    normCdf_tendsto_atTop.eventually_const_lt h1
  obtain ⟨a, hap⟩ := ha.exists
  obtain ⟨b, hpb⟩ := hb.exists
  have haa : normCdf (min a b) ≤ normCdf a :=
    normCdf_strictMono.monotone (min_le_left a b)
  have hbb : normCdf b ≤ normCdf (max a b) :=
    normCdf_strictMono.monotone (le_max_right a b)
  have hmem : p ∈ Set.Icc (normCdf (min a b)) (normCdf (max a b)) :=
    ⟨le_of_lt (lt_of_le_of_lt haa hap), le_of_lt (lt_of_lt_of_le hpb hbb)⟩
  obtain ⟨x, _, hx⟩ := intermediate_value_Icc (min_le_max (a := a) (b := b))
    normCdf_continuous.continuousOn hmem
  exact ⟨x, hx⟩

theorem normCdf_normPpf {p : ℝ} (h0 : 0 < p) (h1 : p < 1) :
    normCdf (normPpf p) = p :=
  Function.invFun_eq (normCdf_surj h0 h1)

/-! ### Claim C3 — put-call parity -/

/-- C3: for every spot `S > 0`, strike `K > 0`, rates, volatility `σ > 0` and
time `t > 0`, the Garman-Kohlhagen call price minus the put price on
otherwise identical `OptionParams` equals `S·e^{-r_f t} - K·e^{-r_d t}`. -/
theorem C3_put_call_parity (S K rd rf σ t n : ℝ) (nc : String)
    (hS : 0 < S) (hK : 0 < K) (hσ : 0 < σ) (ht : 0 < t) :
    GarmanKohlhagen.price ⟨S, K, rd, rf, σ, t, true, n, nc⟩ -
      GarmanKohlhagen.price ⟨S, K, rd, rf, σ, t, false, n, nc⟩ =
      S * Real.exp (-rf * t) - K * Real.exp (-rd * t) := by
  have hnt : ¬ (t ≤ 0) := not_le.mpr ht
  simp only [GarmanKohlhagen.price, hnt, if_false, ite_false, ite_true,
    Bool.false_eq_true, if_true]
  rw [normCdf_neg, normCdf_neg]
  ring

/-- Witness for C3 at `S = K = 1`, `r_d = r_f = 0`, `σ = 1`, `t = 1`. -/
theorem C3_put_call_parity_witness :
    GarmanKohlhagen.price ⟨1, 1, 0, 0, 1, 1, true, 1000000, "FOR"⟩ -
      GarmanKohlhagen.price ⟨1, 1, 0, 0, 1, 1, false, 1000000, "FOR"⟩ =
      1 * Real.exp (-0 * 1) - 1 * Real.exp (-0 * 1) :=
  C3_put_call_parity 1 1 0 0 1 1 1000000 "FOR"
    (by norm_num) (by norm_num) (by norm_num) (by norm_num)

/-! ### Claim C4 — strike-from-delta round trip -/

/-- C4: for every `S > 0`, `σ > 0`, `t > 0`, rates, and every attainable
target delta (`0 < Δ < e^{-r_f t}` for a call, `-e^{-r_f t} < Δ < 0` for a
put), `GarmanKohlhagen.delta` evaluated at the strike returned by
`calculate_strike_from_delta` recovers exactly `Δ`, for calls and puts. -/
theorem C4_strike_from_delta_roundtrip (S Δ rd rf σ t n : ℝ) (nc : String)
    (isCall : Bool) (hS : 0 < S) (hσ : 0 < σ) (ht : 0 < t)
    (hΔ : if isCall then 0 < Δ ∧ Δ < Real.exp (-rf * t)
      else -Real.exp (-rf * t) < Δ ∧ Δ < 0) :
    GarmanKohlhagen.delta
      ⟨S, GarmanKohlhagen.calculateStrikeFromDelta S Δ rd rf σ t isCall,
        rd, rf, σ, t, isCall, n, nc⟩ = Δ := by
  have hnt : ¬ (t ≤ 0) := not_le.mpr ht
  have hdf : 0 < Real.exp (-rf * t) := Real.exp_pos _
  have hsq : 0 < Real.sqrt t := Real.sqrt_pos.mpr ht
  have hcond : ¬ (t ≤ 0 ∨ σ ≤ 0) := by push_neg; exact ⟨ht, hσ⟩
  have hσs : σ * Real.sqrt t ≠ 0 := ne_of_gt (mul_pos hσ hsq)
  have hσn : ¬ (σ ≤ 0) := not_le.mpr hσ
  have hlog : ∀ z : ℝ, Real.log (S / (S * Real.exp (-z))) = z := by
    intro z
    have hx : S / (S * Real.exp (-z)) = Real.exp z := by
      rw [Real.exp_neg]
      field_simp
    rw [hx, Real.log_exp]
  cases isCall with
  | true =>
    simp only [if_true] at hΔ
    obtain ⟨h0, h1⟩ := hΔ
    have hp0 : 0 < Δ / Real.exp (-rf * t) := div_pos h0 hdf
    have hp1 : Δ / Real.exp (-rf * t) < 1 := (div_lt_one hdf).mpr h1
    have hΦ : normCdf (normPpf (Δ / Real.exp (-rf * t))) = Δ / Real.exp (-rf * t) :=
      normCdf_normPpf hp0 hp1
    simp only [GarmanKohlhagen.delta, GarmanKohlhagen.d1d2,
      GarmanKohlhagen.calculateStrikeFromDelta, hnt, hcond, hσn, if_false, ite_false,
      ite_true, if_true, false_or]
    rw [hlog]
    have harg :
        (normPpf (Δ / Real.exp (-rf * t)) * σ * Real.sqrt t
            - (rd - rf + 0.5 * σ ^ 2) * t + (rd - rf + 0.5 * σ ^ 2) * t) /
          (σ * Real.sqrt t) = normPpf (Δ / Real.exp (-rf * t)) := by
      field_simp
      ring
    rw [harg, hΦ]
    field_simp
  | false =>
    simp only [if_false, Bool.false_eq_true, ite_false] at hΔ
    obtain ⟨h0, h1⟩ := hΔ
    have hp0 : 0 < Δ / Real.exp (-rf * t) + 1 := by
      have : -1 < Δ / Real.exp (-rf * t) := by
        rw [lt_div_iff₀ hdf]
        linarith
      linarith
    have hp1 : Δ / Real.exp (-rf * t) + 1 < 1 := by
      have : Δ / Real.exp (-rf * t) < 0 := div_neg_of_neg_of_pos h1 hdf
      linarith
    have hΦ : normCdf (normPpf (Δ / Real.exp (-rf * t) + 1)) =
        Δ / Real.exp (-rf * t) + 1 := normCdf_normPpf hp0 hp1
    simp only [GarmanKohlhagen.delta, GarmanKohlhagen.d1d2,
      GarmanKohlhagen.calculateStrikeFromDelta, hnt, hcond, hσn, if_false, ite_false,
      Bool.false_eq_true, false_or]
    rw [hlog]
    have harg :
        (normPpf (Δ / Real.exp (-rf * t) + 1) * σ * Real.sqrt t
            - (rd - rf + 0.5 * σ ^ 2) * t + (rd - rf + 0.5 * σ ^ 2) * t) /
          (σ * Real.sqrt t) = normPpf (Δ / Real.exp (-rf * t) + 1) := by
      field_simp
      ring
    rw [harg, hΦ]
    field_simp

/-- Witness for C4: a call with `S = 1`, `Δ = 1/2`, `r_d = r_f = 0`,
`σ = 1`, `t = 1` (so the attainability bound is `e^0 = 1`). -/
theorem C4_strike_from_delta_roundtrip_witness :
    GarmanKohlhagen.delta
      ⟨1, GarmanKohlhagen.calculateStrikeFromDelta 1 (1 / 2) 0 0 1 1 true,
        0, 0, 1, 1, true, 1000000, "FOR"⟩ = 1 / 2 :=
  C4_strike_from_delta_roundtrip 1 (1 / 2) 0 0 1 1 1000000 "FOR" true
    (by norm_num) (by norm_num) (by norm_num)
    (by norm_num [Real.exp_zero])

/-! ### Claim C8 — interpolation idempotence at the pillars -/

theorem headD_eq_getElem {α : Type} (l : List α) (d : α) (h : 0 < l.length) :
    l.headD d = l[0] := by
  cases l with
  | nil => simp at h
  | cons a l => rfl

/-- On a strictly ascending list the `bisect_left` insertion index of the
`i`-th pillar is `i` itself. -/
theorem bisectLeft_pillar {α : Type} [LinearOrder α] :
    ∀ (xs : List α) (i : ℕ) (hi : i < xs.length),
      List.Chain' (· < ·) xs → bisectLeft xs[i] xs = i := by
  intro xs
  induction xs with
  | nil => intro i hi _; simp at hi
  | cons x rest ih =>
    intro i hi hchain
    have hpair := (List.chain'_iff_pairwise).mp hchain
    have hxrest : ∀ y ∈ rest, x < y := (List.pairwise_cons.mp hpair).1
    have htail : List.Chain' (· < ·) rest := hchain.tail
    cases i with
    | zero =>
      simp only [List.getElem_cons_zero, bisectLeft, List.countP_cons]
      have h1 : ¬ (x < x) := lt_irrefl x
      have h2 : rest.countP (fun y => decide (y < x)) = 0 := by
        apply List.countP_eq_zero.mpr
        intro y hy
        simp only [decide_eq_true_eq]
        exact not_lt.mpr (le_of_lt (hxrest y hy))
      simp [bisectLeft, h1, h2]
    | succ j =>
      have hj : j < rest.length := by simpa using hi
      have hmem : rest[j] ∈ rest := List.getElem_mem hj
      simp only [List.getElem_cons_succ, bisectLeft, List.countP_cons,
        decide_eq_true_eq]
      have hx : x < rest[j] := hxrest _ hmem
      have := ih j hj htail
      simp only [bisectLeft] at this
      simp [this, hx]

/-- Idempotence of `linear_interpolate` at every pillar of a strictly
ascending abscissa list. -/
theorem linearInterpolate_pillar {α : Type} [LinearOrderedField α]
    (xs ys : List α) (e : Bool) (i : ℕ) (hi : i < xs.length)
    (hi' : i < ys.length) (hlen : xs.length = ys.length)
    (hsorted : List.Chain' (· < ·) xs) :
    linearInterpolate xs[i] xs ys e = .ok ys[i] := by
  have hpair := (List.chain'_iff_pairwise).mp hsorted
  have hidx := bisectLeft_pillar xs i hi hsorted
  unfold linearInterpolate
  rw [if_neg (by omega)]
  rw [if_neg (by omega)]
  by_cases hone : xs.length = 1
  · rw [if_pos hone]
    have hi0 : i = 0 := by omega
    subst hi0
    rw [headD_eq_getElem ys 0 (by omega)]
  · rw [if_neg hone]
    simp only [hidx]
    by_cases hz : i = 0
    · subst hz
      rw [if_pos rfl]
      have h0 : xs.getD 0 0 = xs[0] := List.getD_eq_getElem xs 0 hi
      have h0' : ys.getD 0 0 = ys[0] := List.getD_eq_getElem ys 0 hi'
      have hseg : ∀ y1 x2 y2 : α, linearSegment xs[0] xs[0] y1 x2 y2 = y1 := by
        intro y1 x2 y2
        unfold linearSegment
        by_cases hx : x2 = xs[0]
        · rw [if_pos hx]
        · rw [if_neg hx]
          ring
      cases e with
      | true => rw [if_pos rfl, h0, h0', hseg]
      | false =>
        simp only [Bool.false_eq_true, if_false, ite_false]
        rw [headD_eq_getElem ys 0 (by omega)]
    · rw [if_neg hz, if_neg (by omega)]
      have hi1 : i - 1 < xs.length := by omega
      have hi1' : i - 1 < ys.length := by omega
      have hgx : xs.getD (i - 1) 0 = xs[i - 1] := List.getD_eq_getElem xs 0 hi1
      have hgy : ys.getD (i - 1) 0 = ys[i - 1] := List.getD_eq_getElem ys 0 hi1'
      have hgx2 : xs.getD i 0 = xs[i] := List.getD_eq_getElem xs 0 hi
      have hgy2 : ys.getD i 0 = ys[i] := List.getD_eq_getElem ys 0 hi'
      rw [hgx, hgy, hgx2, hgy2]
      have hlt : xs[i - 1] < xs[i] := by
        have := List.pairwise_iff_getElem.mp hpair (i - 1) i hi1 hi (by omega)
        exact this
      unfold linearSegment
      rw [if_neg (ne_of_gt hlt)]
      have hne : xs[i] - xs[i - 1] ≠ 0 := sub_ne_zero.mpr (ne_of_gt hlt)
      field_simp

/-- C8 (amended): `linear_interpolate` returns exactly `ys[i]` at every
pillar `xs[i]` of a strictly ascending list, and `variance_interpolate`
returns exactly `vols[i]` at every pillar of a strictly ascending positive
time list provided the vol quoted at the queried pillar is positive. -/
theorem C8_interpolation_idempotence
    (xs ys : List ℝ) (e : Bool) (i : ℕ) (hi : i < xs.length)
    (hi' : i < ys.length) (hlen : xs.length = ys.length)
    (hsorted : List.Chain' (· < ·) xs)
    (ts vols : List ℝ) (f : Bool) (j : ℕ) (hj : j < ts.length)
    (hj' : j < vols.length) (hlen2 : ts.length = vols.length)
    (hsorted2 : List.Chain' (· < ·) ts)
    (hpos : ∀ t ∈ ts, 0 < t) (hvol : 0 < vols[j]) :
    linearInterpolate xs[i] xs ys e = .ok ys[i] ∧
      varianceInterpolate ts[j] ts vols f = .ok vols[j] := by
  refine ⟨linearInterpolate_pillar xs ys e i hi hi' hlen hsorted, ?_⟩
  have htj : 0 < ts[j] := hpos _ (List.getElem_mem hj)
  unfold varianceInterpolate
  rw [if_neg (by omega)]
  rw [if_neg (by omega)]
  by_cases hone : ts.length = 1
  · rw [if_pos hone]
    have hj0 : j = 0 := by omega
    subst hj0
    rw [headD_eq_getElem vols 0 (by omega)]
  · rw [if_neg hone, if_neg (not_le.mpr htj)]
    have hlenz : (List.zipWith (fun vol time => vol ^ 2 * time) vols ts).length
        = ts.length := by
      rw [List.length_zipWith]
      omega
    have hjz : j < (List.zipWith (fun vol time => vol ^ 2 * time) vols ts).length := by
      omega
    have hzget : (List.zipWith (fun vol time => vol ^ 2 * time) vols ts)[j]
        = vols[j] ^ 2 * ts[j] := List.getElem_zipWith
    have hinterp := linearInterpolate_pillar ts
      (List.zipWith (fun vol time => vol ^ 2 * time) vols ts) f j hj hjz
      (by omega) hsorted2
    simp only []
    rw [hinterp]
    simp only [hzget]
    have hvar : 0 < vols[j] ^ 2 * ts[j] := mul_pos (pow_pos hvol 2) htj
    rw [if_neg (not_le.mpr hvar)]
    rw [mul_div_cancel_right₀ _ (ne_of_gt htj), Real.sqrt_sq (le_of_lt hvol)]

/-- Witness for C8 at `xs = [1,2]`, `ys = [3,4]`, `i = 0` and `ts = [1,2]`,
`vols = [1/10, 1/5]`, `j = 1`. -/
theorem C8_interpolation_idempotence_witness :
    linearInterpolate ([(1 : ℝ), 2][0]) [1, 2] [3, 4] true = .ok ([(3 : ℝ), 4][0]) ∧
      varianceInterpolate ([(1 : ℝ), 2][1]) [1, 2] [1 / 10, 1 / 5] true
        = .ok ([(1 : ℝ) / 10, 1 / 5][1]) :=
  C8_interpolation_idempotence [1, 2] [3, 4] true 0 (by norm_num) (by norm_num)
    (by norm_num) (by norm_num [List.chain'_cons])
    [1, 2] [1 / 10, 1 / 5] true 1 (by norm_num) (by norm_num) (by norm_num)
    (by norm_num [List.chain'_cons])
    (by intro t ht; simp at ht; rcases ht with h | h <;> subst h <;> norm_num)
    (by norm_num)

/-- C8 counterexample: on the strictly ascending positive pillars `[1, 2]`
with `vols = [1/10, 0]`, `variance_interpolate` at the pillar `ts[1] = 2`
returns `1/10` (the first vol), not the own vol `0` of that pillar — so the
second half of the claim fails when a quoted vol is zero. -/
theorem C8_counterexample :
    List.Chain' (· < ·) [(1 : ℝ), 2] ∧ (∀ t ∈ [(1 : ℝ), 2], 0 < t) ∧
      varianceInterpolate ([(1 : ℝ), 2][1]) [1, 2] [1 / 10, 0] true = .ok (1 / 10) ∧
      ([(1 : ℝ) / 10, 0][1] = 0 ∧ (1 : ℝ) / 10 ≠ 0) := by
  refine ⟨by norm_num [List.chain'_cons], ?_, ?_, by norm_num, by norm_num⟩
  · intro t ht
    simp at ht
    rcases ht with h | h <;> subst h <;> norm_num
  · norm_num [varianceInterpolate, linearInterpolate, bisectLeft, linearSegment,
      List.countP_cons, List.countP_nil]

/-! ### Claim C7 — ForwardCurve.get_forward at non-positive time -/

/-- C7 (amended): `get_forward(t)` with `t ≤ 0` returns the spot for every
curve holding zero or at least two forward points; a curve holding exactly
one forward point instead returns that stored forward outright, whatever
`t` is. -/
theorem C7_forward_nonpos_time (c : ForwardCurve) (spline : ℚ → ℚ) (t : ℚ)
    (ht : t ≤ 0) (hn : c.forwards.length ≠ 1) :
    c.getForward spline t = c.spot := by
  unfold ForwardCurve.getForward
  by_cases h0 : c.forwards.length = 0
  · rw [if_pos h0]
  · rw [if_neg h0, if_neg hn]
    simp only []
    rw [if_pos ht]

/-- Witness for C7: a two-point curve with spot 5 queried at `t = -1`. -/
theorem C7_forward_nonpos_time_witness :
    ForwardCurve.getForward
      ⟨"EURUSD", 5, [("1M", 6), ("2M", 7)], [1 / 12, 1 / 6]⟩ (fun _ => 0) (-1) = 5 :=
  C7_forward_nonpos_time _ _ _ (by norm_num) (by norm_num)

/-- C7 counterexample: a curve holding exactly one forward point (spot 1,
forward 2) returns the stored forward 2, not the spot, at `t = 0`. -/
theorem C7_counterexample :
    ForwardCurve.getForward ⟨"EURUSD", 1, [("1M", 2)], [1 / 12]⟩ (fun _ => 0) 0 = 2 ∧
      (2 : ℚ) ≠ 1 := by
  constructor
  · rfl
  · norm_num

/-! ### Claim C9 — empty surface returns the default vol -/

/-- C9: on a `VolSurface` containing zero smiles both `get_vol` and
`get_atm_vol` return the constant default volatility `0.10` for every
strike and time argument (and every state of the scipy interpolators),
without raising. -/
theorem C9_empty_surface_default (ndVol : Option ℝ) (strike tte : ℝ)
    (spot rDom rFor : Option ℝ) (atmSpline : Option (ℤ → ℝ)) :
    VolSurface.getVol ⟨[]⟩ ndVol strike tte spot rDom rFor = 0.10 ∧
      VolSurface.getAtmVol ⟨[]⟩ atmSpline tte = 0.10 :=
  ⟨rfl, rfl⟩

/-! ### Claim C6 — missing tenors in the delta calculation -/

theorem map_fst_filterMap_guard {β γ : Type} (l : List (String × β))
    (c : String → Prop) [DecidablePred c] (g : String × β → γ) :
    (l.filterMap (fun p => if c p.1 then some (p.1, g p) else none)).map Prod.fst
      = (l.filter (fun p => decide (c p.1))).map Prod.fst := by
  induction l with
  | nil => rfl
  | cons a l ih =>
    by_cases h : c a.1
    · simp [List.filterMap_cons, List.filter_cons, h, ih]
    · simp [List.filterMap_cons, List.filter_cons, h, ih]

/-- C6 (amended): tenors absent from the start snapshot never produce a diff
entry, but the three families differ on tenors present only in the start
snapshot — the forward-points and rate diff maps carry an entry for *every*
start tenor (the missing end value is read as 0), while the vol-smile diff
maps keep exactly the start tenors whose smile dict is non-empty in both
snapshots; nothing raises. -/
theorem C6_missing_tenor_handling (s e : HistSnapshot) (d1 d2 : ℤ) :
    ((MarketDataDelta.calculate s e d1 d2).forwardPctChanges.map Prod.fst
        = s.forwardPoints.map Prod.fst) ∧
      ((MarketDataDelta.calculate s e d1 d2).usdRateDiffs.map Prod.fst
        = s.usdRates.map Prod.fst) ∧
      (∀ key, (volSmileDiffs s e key).map Prod.fst
        = (s.volSmiles.filter (fun p =>
            decide (lookupSmileData s.volSmiles p.1 ≠ [] ∧
              lookupSmileData e.volSmiles p.1 ≠ []))).map Prod.fst) ∧
      (MarketDataDelta.calculate s e d1 d2).atmVolDiffs = volSmileDiffs s e "atm" ∧
      (MarketDataDelta.calculate s e d1 d2).rr25Diffs = volSmileDiffs s e "rr25" ∧
      (MarketDataDelta.calculate s e d1 d2).rr10Diffs = volSmileDiffs s e "rr10" ∧
      (MarketDataDelta.calculate s e d1 d2).bf25Diffs = volSmileDiffs s e "bf25" ∧
      (MarketDataDelta.calculate s e d1 d2).bf10Diffs = volSmileDiffs s e "bf10" := by
    refine ⟨?_, ?_, ?_, rfl, rfl, rfl, rfl, rfl⟩
    · show (s.forwardPoints.map _).map Prod.fst = _
      rw [List.map_map]
      rfl
    · show (s.usdRates.map _).map Prod.fst = _
      rw [List.map_map]
      rfl
    · intro key
      exact map_fst_filterMap_guard s.volSmiles
        (fun k => lookupSmileData s.volSmiles k ≠ [] ∧ lookupSmileData e.volSmiles k ≠ [])
        (fun p => (lookup0 (lookupSmileData e.volSmiles p.1) key -
          lookup0 (lookupSmileData s.volSmiles p.1) key) / 100)

/-- C6 counterexample: tenor `"1M"` is present only in the start snapshot
(the end snapshot has no forward points at all), yet the forward-points diff
map carries the entry `("1M", -1)` — the tenor is not silently skipped. -/
theorem C6_counterexample :
    (MarketDataDelta.calculate ⟨1, [("1M", 10)], [], []⟩ ⟨1, [], [], []⟩ 0 0).forwardPctChanges
        = [("1M", -1)] ∧
      (([] : List (String × ℚ)).map Prod.fst = []) := by
  refine ⟨?_, rfl⟩
  norm_num [MarketDataDelta.calculate, lookup0, List.find?]

/-! ### Claim C10 — totality of VolSmile.get_vol_for_strike -/

theorem insertSorted_length {α : Type} (lt : α → α → Bool) (x : α) (l : List α) :
    (insertSorted lt x l).length = l.length + 1 := by
  induction l with
  | nil => rfl
  | cons y ys ih => cases hxy : lt x y <;> simp [insertSorted, hxy, ih]

theorem pySorted_length {α : Type} (lt : α → α → Bool) (l : List α) :
    (pySorted lt l).length = l.length := by
  suffices h : ∀ acc : List α,
      (l.foldl (fun acc x => insertSorted lt x acc) acc).length
        = acc.length + l.length by
    simpa [pySorted] using h []
  induction l with
  | nil => intro acc; simp
  | cons x xs ih =>
    intro acc
    simp only [List.foldl_cons, ih, insertSorted_length, List.length_cons]
    omega

theorem linearInterpolate_isOk {α : Type} [LinearOrderedField α]
    (x : α) (xs ys : List α) (e : Bool)
    (hlen : xs.length = ys.length) (hne : xs.length ≠ 0) :
    ∃ v, linearInterpolate x xs ys e = .ok v := by
  unfold linearInterpolate
  rw [if_neg (by omega), if_neg hne]
  by_cases h1 : xs.length = 1
  · rw [if_pos h1]
    exact ⟨_, rfl⟩
  · rw [if_neg h1]
    simp only []
    split_ifs <;> exact ⟨_, rfl⟩

/-- C10: `get_vol_for_strike` is total for every smile state and strike —
including an uninitialised smile whose five strikes are all equal (e.g. all
`0.0`) — because the equal-abscissa guard of `_linear_segment` returns `y1`
instead of dividing by zero. -/
theorem C10_get_vol_for_strike_total (s : VolSmile) (strike : ℝ) :
    (∃ v, s.getVolForStrike strike = .ok v) ∧
      (∀ x x1 y1 x2 y2 : ℝ, x2 = x1 → linearSegment x x1 y1 x2 y2 = y1) := by
  constructor
  · unfold VolSmile.getVolForStrike
    apply linearInterpolate_isOk
    · simp
    · rw [List.length_map, pySorted_length]
      simp [VolSmile.getStrikesList, VolSmile.getVolsList]
  · intro x x1 y1 x2 y2 h
    unfold linearSegment
    rw [if_pos h]

/-- Witness for C10: an uninitialised smile (all five strikes `0`) still
returns a value, and the equal-abscissa guard at `x1 = x2 = 2` returns `y1`. -/
theorem C10_get_vol_for_strike_total_witness :
    (∃ v, VolSmile.getVolForStrike
        ⟨"1M", 1 / 4, 91, 0, 0, 0, 0, 0, 0, 0, 0, 0, 0⟩ 1 = .ok v) ∧
      linearSegment (5 : ℝ) 2 7 2 9 = 7 :=
  ⟨(C10_get_vol_for_strike_total ⟨"1M", 1 / 4, 91, 0, 0, 0, 0, 0, 0, 0, 0, 0, 0⟩ 1).1,
    (C10_get_vol_for_strike_total ⟨"1M", 1 / 4, 91, 0, 0, 0, 0, 0, 0, 0, 0, 0, 0⟩ 1).2
      5 2 7 2 9 rfl⟩

/-! ### Claim C1 — volatility resolution failure is NOT a hard error -/

theorem roundHalfEven_bounds (x : ℝ) :
    ⌊x⌋ ≤ roundHalfEven x ∧ roundHalfEven x ≤ ⌊x⌋ + 1 := by
  unfold roundHalfEven
  simp only []
  split_ifs <;> omega

theorem round4_mem {v : ℝ} (h1 : 0.001 < v) (h2 : v < 2) :
    0.001 ≤ round4 v ∧ round4 v ≤ 2 := by
  obtain ⟨hlo, hhi⟩ := roundHalfEven_bounds (v * 10000)
  have h10 : (10 : ℤ) ≤ ⌊v * 10000⌋ := by
    apply Int.le_floor.mpr
    push_cast
    nlinarith
  have h20 : ⌊v * 10000⌋ < 20000 := by
    apply Int.floor_lt.mpr
    push_cast
    nlinarith
  have hZ1 : (10 : ℤ) ≤ roundHalfEven (v * 10000) := le_trans h10 hlo
  have hZ2 : roundHalfEven (v * 10000) ≤ 20000 := by omega
  have hR1 : (10 : ℝ) ≤ (roundHalfEven (v * 10000) : ℝ) := by exact_mod_cast hZ1
  have hR2 : ((roundHalfEven (v * 10000) : ℝ)) ≤ 20000 := by exact_mod_cast hZ2
  unfold round4
  constructor
  · rw [le_div_iff (by norm_num : (0 : ℝ) < 10000)]
    nlinarith
  · rw [div_le_iff (by norm_num : (0 : ℝ) < 10000)]
    nlinarith

theorem range_guard_mem (v : ℝ) :
    0.001 ≤ (if 0.001 < v ∧ v < 2 then v else 0.10) ∧
      (if 0.001 < v ∧ v < 2 then v else 0.10) ≤ 2 := by
  split_ifs with h
  · exact ⟨le_of_lt h.1, le_of_lt h.2⟩
  · norm_num

theorem getVolQuery_mem (s2 : VolSurface) (ndVol : Option ℝ) (strike tte : ℝ) :
    0.001 ≤ VolSurface.getVolQuery s2 ndVol strike tte ∧
      VolSurface.getVolQuery s2 ndVol strike tte ≤ 2 := by
  unfold VolSurface.getVolQuery
  by_cases h1 : s2.smiles.length = 1
  · rw [if_pos h1]
    cases hm : (s2.smiles.headD default).getVolForStrike strike with
    | ok v => exact range_guard_mem v
    | error e => norm_num
  · rw [if_neg h1]
    simp only []
    cases ndVol with
    | none =>
      cases hm : s2.interpolateWithVariance strike tte with
      | ok v => simp only [hm]; exact range_guard_mem v
      | error e => simp only [hm]; norm_num
    | some v =>
      by_cases hr : 0.001 < v ∧ v < 2
      · simp only [if_pos hr]
        exact round4_mem hr.1 hr.2
      · simp only [if_neg hr]
        cases hm : s2.interpolateWithVariance strike tte with
        | ok w => simp only [hm]; exact range_guard_mem w
        | error e => simp only [hm]; norm_num

/-- C1 (amended): vol resolution failure is NOT a hard error — `get_vol` and
`get_atm_vol` are total and never raise; whenever interpolation fails or the
interpolated value falls outside `(0.001, 2.0)` they silently substitute the
default volatility `0.10`, so every value returned lies in `[0.001, 2.0]`. -/
theorem C1_vol_failure_returns_default (surf : VolSurface) (ndVol : Option ℝ)
    (strike tte : ℝ) (spot rDom rFor : Option ℝ) (atmSpline : Option (ℤ → ℝ)) :
    (0.001 ≤ VolSurface.getVol surf ndVol strike tte spot rDom rFor ∧
      VolSurface.getVol surf ndVol strike tte spot rDom rFor ≤ 2) ∧
      (0.001 ≤ VolSurface.getAtmVol surf atmSpline tte ∧
        VolSurface.getAtmVol surf atmSpline tte ≤ 2) := by
  constructor
  · unfold VolSurface.getVol
    by_cases h0 : surf.smiles.length = 0
    · rw [if_pos h0]
      norm_num
    · rw [if_neg h0]
      exact getVolQuery_mem _ _ _ _
  · unfold VolSurface.getAtmVol
    by_cases h0 : surf.smiles.length = 0
    · rw [if_pos h0]
      norm_num
    · rw [if_neg h0]
      cases atmSpline with
      | none =>
        simp only []
        by_cases hv : (surf.sortedByTime.map VolSmile.volAtm).length = 0 ∨
            (surf.sortedByTime.map VolSmile.volAtm).any
              (fun v => decide (v ≤ 0 ∨ 2 < v))
        · rw [if_pos hv]
          norm_num
        · rw [if_neg hv]
          cases hm : varianceInterpolate tte (surf.sortedByTime.map VolSmile.timeToExpiry)
            (surf.sortedByTime.map VolSmile.volAtm) true with
          | ok v => simp only [hm]; exact range_guard_mem v
          | error e => simp only [hm]; norm_num
      | some spl =>
        simp only []
        exact range_guard_mem _

/-- C1 counterexample: a one-smile surface quoting a constant 300% vol.  The
direct strike interpolation yields `3`, outside the valid range
`(0.001, 2.0)`, yet `get_vol` raises nothing and silently returns the
substituted default `0.10` — and `0.10` is not the interpolated value. -/
theorem C1_counterexample :
    VolSmile.getVolForStrike ⟨"1M", 1 / 4, 91, 3, 3, 3, 3, 3, 1, 2, 3, 4, 5⟩ 3
        = .ok 3 ∧
      ¬ ((0.001 : ℝ) < 3 ∧ (3 : ℝ) < 2) ∧
      VolSurface.getVol ⟨[⟨"1M", 1 / 4, 91, 3, 3, 3, 3, 3, 1, 2, 3, 4, 5⟩]⟩
          none 3 (1 / 4) none none none = 0.10 ∧
      (0.10 : ℝ) ≠ 3 := by
  have hsmile : VolSmile.getVolForStrike ⟨"1M", 1 / 4, 91, 3, 3, 3, 3, 3, 1, 2, 3, 4, 5⟩ 3
      = .ok 3 := by
    unfold VolSmile.getVolForStrike VolSmile.getStrikesList VolSmile.getVolsList
    norm_num [pySorted, insertSorted, List.foldl, linearInterpolate, bisectLeft,
      linearSegment, List.countP_cons, List.countP_nil]
  refine ⟨hsmile, by norm_num, ?_, by norm_num⟩
  unfold VolSurface.getVol
  rw [if_neg (by norm_num)]
  simp only []
  unfold VolSurface.getVolQuery
  rw [if_pos (by norm_num)]
  have : (VolSurface.mk [⟨"1M", 1 / 4, 91, 3, 3, 3, 3, 3, 1, 2, 3, 4, 5⟩]).smiles.headD default
      = ⟨"1M", 1 / 4, 91, 3, 3, 3, 3, 3, 1, 2, 3, 4, 5⟩ := rfl
  rw [this, hsmile]
  norm_num

/-! ### Claim C5 — shock round trip on a self-delta -/

theorem lookup0_eq_zero {l : List (String × ℚ)} (h : ∀ p ∈ l, p.2 = 0)
    (k : String) : lookup0 l k = 0 := by
  unfold lookup0
  cases hf : l.find? (fun p => p.1 == k) with
  | none => rfl
  | some p => exact h p (List.mem_of_find?_eq_some hf)

theorem calculate_self_forward_zero (A : HistSnapshot) (d1 d2 : ℤ) :
    ∀ p ∈ (MarketDataDelta.calculate A A d1 d2).forwardPctChanges, p.2 = 0 := by
  intro p hp
  obtain ⟨q, hq, rfl⟩ := List.mem_map.mp hp
  simp only []
  split_ifs <;> simp

theorem calculate_self_rates_zero (A : HistSnapshot) (d1 d2 : ℤ) :
    ∀ p ∈ (MarketDataDelta.calculate A A d1 d2).usdRateDiffs, p.2 = 0 := by
  intro p hp
  obtain ⟨q, hq, rfl⟩ := List.mem_map.mp hp
  simp

theorem volSmileDiffs_self_zero (A : HistSnapshot) (key : String) :
    ∀ p ∈ volSmileDiffs A A key, p.2 = 0 := by
  intro p hp
  obtain ⟨q, hq, heq⟩ := List.mem_filterMap.mp hp
  by_cases h : lookupSmileData A.volSmiles q.1 ≠ [] ∧ lookupSmileData A.volSmiles q.1 ≠ []
  · rw [if_pos h] at heq
    obtain rfl := Option.some_injective _ heq
    simp
  · rw [if_neg h] at heq
    exact absurd heq (by simp)

/-- C5 (amended): a delta computed between a snapshot and itself has zero
spot change and all-zero per-tenor diffs, and applying it leaves the spot,
forward rates and domestic/foreign rates of any current snapshot unchanged;
the shocked vol smiles agree with the originals up to the clamps
`atm2 = max(0.001, atm)` and `bf2 = max(0, bf)`, hence are identical exactly
when every smile already has `atm ≥ 0.001` and non-negative butterflies. -/
theorem C5_shock_round_trip (A : HistSnapshot) (d1 d2 : ℤ) (M : MarketData)
    (days : ℤ)
    (hatm : ∀ p ∈ M.volSmiles, (0.001 : ℚ) ≤ p.2.atm)
    (hbf25 : ∀ p ∈ M.volSmiles, 0 ≤ p.2.bf25)
    (hbf10 : ∀ p ∈ M.volSmiles, 0 ≤ p.2.bf10) :
    (MarketDataDelta.calculate A A d1 d2).spotPctChange = 0 ∧
      (∀ p ∈ (MarketDataDelta.calculate A A d1 d2).forwardPctChanges, p.2 = 0) ∧
      (∀ p ∈ (MarketDataDelta.calculate A A d1 d2).usdRateDiffs, p.2 = 0) ∧
      (∀ key, ∀ p ∈ volSmileDiffs A A key, p.2 = 0) ∧
      (ShockCalculator.applyShock M (MarketDataDelta.calculate A A d1 d2) days).spot
        = M.spot ∧
      (ShockCalculator.applyShock M (MarketDataDelta.calculate A A d1 d2)
          days).forwardRates = M.forwardRates ∧
      (ShockCalculator.applyShock M (MarketDataDelta.calculate A A d1 d2)
          days).domesticRates = M.domesticRates ∧
      (ShockCalculator.applyShock M (MarketDataDelta.calculate A A d1 d2)
          days).foreignRates = M.foreignRates ∧
      (ShockCalculator.applyShock M (MarketDataDelta.calculate A A d1 d2)
          days).volSmiles = M.volSmiles.map (fun p =>
            (p.1, ⟨p.2.atm, p.2.rr25, p.2.rr10, p.2.bf25, p.2.bf10⟩)) := by
  have hspot : (MarketDataDelta.calculate A A d1 d2).spotPctChange = 0 := by
    show (if 0 < A.spot then (A.spot - A.spot) / A.spot else 0) = 0
    split_ifs <;> simp
  have hfwd := calculate_self_forward_zero A d1 d2
  have hrate := calculate_self_rates_zero A d1 d2
  have hvol : ∀ key, ∀ p ∈ volSmileDiffs A A key, p.2 = 0 :=
    fun key => volSmileDiffs_self_zero A key
  have hl0 : ∀ k, lookup0 (MarketDataDelta.calculate A A d1 d2).forwardPctChanges k = 0 :=
    lookup0_eq_zero hfwd
  have hlr : ∀ k, lookup0 (MarketDataDelta.calculate A A d1 d2).usdRateDiffs k = 0 :=
    lookup0_eq_zero hrate
  have hlv : ∀ key k,
      lookup0 (volSmileDiffs A A key) k = 0 :=
    fun key => lookup0_eq_zero (hvol key)
  have hvolfields :
      (MarketDataDelta.calculate A A d1 d2).atmVolDiffs = volSmileDiffs A A "atm" ∧
      (MarketDataDelta.calculate A A d1 d2).rr25Diffs = volSmileDiffs A A "rr25" ∧
      (MarketDataDelta.calculate A A d1 d2).rr10Diffs = volSmileDiffs A A "rr10" ∧
      (MarketDataDelta.calculate A A d1 d2).bf25Diffs = volSmileDiffs A A "bf25" ∧
      (MarketDataDelta.calculate A A d1 d2).bf10Diffs = volSmileDiffs A A "bf10" :=
    ⟨rfl, rfl, rfl, rfl, rfl⟩
  have hshockedSpot :
      (ShockCalculator.applyShock M (MarketDataDelta.calculate A A d1 d2) days).spot
        = M.spot := by
    show M.spot * (1 + (MarketDataDelta.calculate A A d1 d2).spotPctChange) = M.spot
    rw [hspot]
    ring
  have hla : ∀ k, lookup0 (MarketDataDelta.calculate A A d1 d2).atmVolDiffs k = 0 :=
    lookup0_eq_zero (hvol "atm")
  have hlrr25 : ∀ k, lookup0 (MarketDataDelta.calculate A A d1 d2).rr25Diffs k = 0 :=
    lookup0_eq_zero (hvol "rr25")
  have hlrr10 : ∀ k, lookup0 (MarketDataDelta.calculate A A d1 d2).rr10Diffs k = 0 :=
    lookup0_eq_zero (hvol "rr10")
  have hlbf25 : ∀ k, lookup0 (MarketDataDelta.calculate A A d1 d2).bf25Diffs k = 0 :=
    lookup0_eq_zero (hvol "bf25")
  have hlbf10 : ∀ k, lookup0 (MarketDataDelta.calculate A A d1 d2).bf10Diffs k = 0 :=
    lookup0_eq_zero (hvol "bf10")
  refine ⟨hspot, hfwd, hrate, hvol, hshockedSpot, ?_, ?_, ?_, ?_⟩
  · show M.forwardRates.map _ = M.forwardRates
    refine (List.map_congr_left ?_).trans (List.map_id' M.forwardRates)
    intro p hp
    rw [hl0 p.1, hspot]
    by_cases hj : "JPY".toList <:+: M.ccyPair.toList <;>
      simp only [hj, if_true, if_false, ite_true, ite_false] <;>
      rw [Prod.ext_iff] <;>
      refine ⟨rfl, ?_⟩ <;>
      ring
  · show M.domesticRates.map _ = M.domesticRates
    refine (List.map_congr_left ?_).trans (List.map_id' M.domesticRates)
    intro p hp
    rw [hlr p.1, add_zero]
  · show M.foreignRates.map _ = M.foreignRates
    refine (List.map_congr_left ?_).trans (List.map_id' M.foreignRates)
    intro p hp
    rw [hlr p.1, add_zero]
  · show M.volSmiles.map _ = M.volSmiles.map _
    apply List.map_congr_left
    intro p hp
    rw [hla p.1, hlrr25 p.1, hlrr10 p.1, hlbf25 p.1, hlbf10 p.1]
    simp only [add_zero, Prod.mk.injEq, ShockedSmile.mk.injEq]
    exact ⟨trivial, max_eq_right (hatm p hp), trivial, trivial,
      max_eq_right (hbf25 p hp), max_eq_right (hbf10 p hp)⟩

/-- Witness for C5 on a one-tenor snapshot whose smile satisfies the clamp
hypotheses (`atm = 1/10 ≥ 0.001`, non-negative butterflies). -/
theorem C5_shock_round_trip_witness :
    (MarketDataDelta.calculate ⟨1, [("1M", 10)], [("1M", 5)], [("1M", [("atm", 10)])]⟩
        ⟨1, [("1M", 10)], [("1M", 5)], [("1M", [("atm", 10)])]⟩ 0 5).spotPctChange = 0 ∧
      (∀ p ∈ (MarketDataDelta.calculate ⟨1, [("1M", 10)], [("1M", 5)], [("1M", [("atm", 10)])]⟩
          ⟨1, [("1M", 10)], [("1M", 5)], [("1M", [("atm", 10)])]⟩ 0 5).forwardPctChanges,
        p.2 = 0) ∧
      (∀ p ∈ (MarketDataDelta.calculate ⟨1, [("1M", 10)], [("1M", 5)], [("1M", [("atm", 10)])]⟩
          ⟨1, [("1M", 10)], [("1M", 5)], [("1M", [("atm", 10)])]⟩ 0 5).usdRateDiffs,
        p.2 = 0) ∧
      (∀ key, ∀ p ∈ volSmileDiffs ⟨1, [("1M", 10)], [("1M", 5)], [("1M", [("atm", 10)])]⟩
          ⟨1, [("1M", 10)], [("1M", 5)], [("1M", [("atm", 10)])]⟩ key, p.2 = 0) ∧
      (ShockCalculator.applyShock
          ⟨"EURUSD", "", "", 1, true, [("1M", 11 / 10)],
            [("1M", ⟨"1M", 1 / 10, 1 / 100, 1 / 200, 1 / 50, 3 / 1000⟩)],
            [("1M", 1 / 20)], [("1M", 3 / 100)]⟩
          (MarketDataDelta.calculate ⟨1, [("1M", 10)], [("1M", 5)], [("1M", [("atm", 10)])]⟩
            ⟨1, [("1M", 10)], [("1M", 5)], [("1M", [("atm", 10)])]⟩ 0 5) 30).spot = 1 ∧
      (ShockCalculator.applyShock
          ⟨"EURUSD", "", "", 1, true, [("1M", 11 / 10)],
            [("1M", ⟨"1M", 1 / 10, 1 / 100, 1 / 200, 1 / 50, 3 / 1000⟩)],
            [("1M", 1 / 20)], [("1M", 3 / 100)]⟩
          (MarketDataDelta.calculate ⟨1, [("1M", 10)], [("1M", 5)], [("1M", [("atm", 10)])]⟩
            ⟨1, [("1M", 10)], [("1M", 5)], [("1M", [("atm", 10)])]⟩ 0 5) 30).forwardRates
        = [("1M", 11 / 10)] ∧
      (ShockCalculator.applyShock
          ⟨"EURUSD", "", "", 1, true, [("1M", 11 / 10)],
            [("1M", ⟨"1M", 1 / 10, 1 / 100, 1 / 200, 1 / 50, 3 / 1000⟩)],
            [("1M", 1 / 20)], [("1M", 3 / 100)]⟩
          (MarketDataDelta.calculate ⟨1, [("1M", 10)], [("1M", 5)], [("1M", [("atm", 10)])]⟩
            ⟨1, [("1M", 10)], [("1M", 5)], [("1M", [("atm", 10)])]⟩ 0 5) 30).domesticRates
        = [("1M", 1 / 20)] ∧
      (ShockCalculator.applyShock
          ⟨"EURUSD", "", "", 1, true, [("1M", 11 / 10)],
            [("1M", ⟨"1M", 1 / 10, 1 / 100, 1 / 200, 1 / 50, 3 / 1000⟩)],
            [("1M", 1 / 20)], [("1M", 3 / 100)]⟩
          (MarketDataDelta.calculate ⟨1, [("1M", 10)], [("1M", 5)], [("1M", [("atm", 10)])]⟩
            ⟨1, [("1M", 10)], [("1M", 5)], [("1M", [("atm", 10)])]⟩ 0 5) 30).foreignRates
        = [("1M", 3 / 100)] ∧
      (ShockCalculator.applyShock
          ⟨"EURUSD", "", "", 1, true, [("1M", 11 / 10)],
            [("1M", ⟨"1M", 1 / 10, 1 / 100, 1 / 200, 1 / 50, 3 / 1000⟩)],
            [("1M", 1 / 20)], [("1M", 3 / 100)]⟩
          (MarketDataDelta.calculate ⟨1, [("1M", 10)], [("1M", 5)], [("1M", [("atm", 10)])]⟩
            ⟨1, [("1M", 10)], [("1M", 5)], [("1M", [("atm", 10)])]⟩ 0 5) 30).volSmiles
        = ([("1M", (⟨"1M", 1 / 10, 1 / 100, 1 / 200, 1 / 50, 3 / 1000⟩ : VolSmileData))].map
            (fun p => (p.1, ⟨p.2.atm, p.2.rr25, p.2.rr10, p.2.bf25, p.2.bf10⟩))) := by
  have h := C5_shock_round_trip
    ⟨1, [("1M", 10)], [("1M", 5)], [("1M", [("atm", 10)])]⟩ 0 5
    ⟨"EURUSD", "", "", 1, true, [("1M", 11 / 10)],
      [("1M", ⟨"1M", 1 / 10, 1 / 100, 1 / 200, 1 / 50, 3 / 1000⟩)],
      [("1M", 1 / 20)], [("1M", 3 / 100)]⟩ 30
    (by intro p hp; simp at hp; subst hp; norm_num)
    (by intro p hp; simp at hp; subst hp; norm_num)
    (by intro p hp; simp at hp; subst hp; norm_num)
  obtain ⟨h1, h2, h3, h4, h5, h6, h7, h8, h9⟩ := h
  exact ⟨h1, h2, h3, h4, h5, h6, h7, h8, h9⟩

/-- C5 counterexample: a current snapshot whose only smile quotes
`atm = 1/2000 < 0.001` is *not* returned identically under the self-delta —
the ATM vol is clamped up to `0.001`. -/
theorem C5_counterexample :
    (ShockCalculator.applyShock
        ⟨"EURUSD", "", "", 1, true, [], [("1M", ⟨"1M", 1 / 2000, 0, 0, 0, 0⟩)], [], []⟩
        (MarketDataDelta.calculate ⟨1, [], [], [("1M", [("atm", 1 / 20)])]⟩
          ⟨1, [], [], [("1M", [("atm", 1 / 20)])]⟩ 0 0) 10).volSmiles
      = [("1M", ⟨1 / 1000, 0, 0, 0, 0⟩)] ∧ ((1 : ℚ) / 1000 ≠ 1 / 2000) := by
  refine ⟨?_, by norm_num⟩
  have hza : ∀ k, lookup0 (MarketDataDelta.calculate ⟨1, [], [], [("1M", [("atm", 1 / 20)])]⟩
      ⟨1, [], [], [("1M", [("atm", 1 / 20)])]⟩ 0 0).atmVolDiffs k = 0 :=
    lookup0_eq_zero (volSmileDiffs_self_zero ⟨1, [], [], [("1M", [("atm", 1 / 20)])]⟩ "atm")
  have hzb : ∀ k, lookup0 (MarketDataDelta.calculate ⟨1, [], [], [("1M", [("atm", 1 / 20)])]⟩
      ⟨1, [], [], [("1M", [("atm", 1 / 20)])]⟩ 0 0).rr25Diffs k = 0 :=
    lookup0_eq_zero (volSmileDiffs_self_zero ⟨1, [], [], [("1M", [("atm", 1 / 20)])]⟩ "rr25")
  have hzc : ∀ k, lookup0 (MarketDataDelta.calculate ⟨1, [], [], [("1M", [("atm", 1 / 20)])]⟩
      ⟨1, [], [], [("1M", [("atm", 1 / 20)])]⟩ 0 0).rr10Diffs k = 0 :=
    lookup0_eq_zero (volSmileDiffs_self_zero ⟨1, [], [], [("1M", [("atm", 1 / 20)])]⟩ "rr10")
  have hzd : ∀ k, lookup0 (MarketDataDelta.calculate ⟨1, [], [], [("1M", [("atm", 1 / 20)])]⟩
      ⟨1, [], [], [("1M", [("atm", 1 / 20)])]⟩ 0 0).bf25Diffs k = 0 :=
    lookup0_eq_zero (volSmileDiffs_self_zero ⟨1, [], [], [("1M", [("atm", 1 / 20)])]⟩ "bf25")
  have hze : ∀ k, lookup0 (MarketDataDelta.calculate ⟨1, [], [], [("1M", [("atm", 1 / 20)])]⟩
      ⟨1, [], [], [("1M", [("atm", 1 / 20)])]⟩ 0 0).bf10Diffs k = 0 :=
    lookup0_eq_zero (volSmileDiffs_self_zero ⟨1, [], [], [("1M", [("atm", 1 / 20)])]⟩ "bf10")
  show [("1M", (⟨max 0.001 (1 / 2000 + lookup0 _ "1M"), 0 + lookup0 _ "1M",
      0 + lookup0 _ "1M", max 0 (0 + lookup0 _ "1M"), max 0 (0 + lookup0 _ "1M")⟩ :
      ShockedSmile))] = [("1M", ⟨1 / 1000, 0, 0, 0, 0⟩)]
  rw [hza "1M", hzb "1M", hzc "1M", hzd "1M", hze "1M"]
  norm_num [max_def]

/-! ### Claim C2 — expired shock is a hard error -/

/-- C2: whenever `original_expiry_days - time_diff_days ≤ 0`, the shocked
repricing fails with the specific expired error before any pricing, and
`apply_shock` stores the un-clamped difference as the shocked expiry. -/
theorem C2_expired_shock_fails (cur : MarketData) (delta : MarketDataDelta)
    (lastParams : OptionParams)
    (h : intTrunc (lastParams.timeToExpiry * 365) - delta.timeDiffDays ≤ 0) :
    applyShockAndReprice cur delta lastParams =
      .error (expiredError (intTrunc (lastParams.timeToExpiry * 365) - delta.timeDiffDays)) ∧
      (ShockCalculator.applyShock cur delta
          (intTrunc (lastParams.timeToExpiry * 365))).shockedExpiryDays =
        intTrunc (lastParams.timeToExpiry * 365) - delta.timeDiffDays := by
  refine ⟨?_, rfl⟩
  unfold applyShockAndReprice
  simp only []
  rw [if_pos (show (ShockCalculator.applyShock cur delta
    (intTrunc (lastParams.timeToExpiry * 365))).shockedExpiryDays ≤ 0 from h)]
  rfl

/-- Witness for C2: an option with zero time to expiry shocked over a
one-day window fails with the expired error. -/
theorem C2_expired_shock_fails_witness :
    applyShockAndReprice ⟨"EURUSD", "", "", 1, true, [], [], [], []⟩
        { timeDiffDays := 1 } ⟨1, 1, 0, 0, 1, 0, true, 1000000, "FOR"⟩ =
      .error (expiredError (intTrunc ((0 : ℝ) * 365) - 1)) ∧
      (ShockCalculator.applyShock ⟨"EURUSD", "", "", 1, true, [], [], [], []⟩
          { timeDiffDays := 1 } (intTrunc ((0 : ℝ) * 365))).shockedExpiryDays =
        intTrunc ((0 : ℝ) * 365) - 1 :=
  C2_expired_shock_fails ⟨"EURUSD", "", "", 1, true, [], [], [], []⟩
    { timeDiffDays := 1 } ⟨1, 1, 0, 0, 1, 0, true, 1000000, "FOR"⟩
    (by norm_num [intTrunc])

end FXO
